import Mathlib

/-!
Verification of `@trust-escrow/storage-lib` (Artha-Network/storage-lib).

This file shallowly embeds the library's hashing utilities, the two HTTP
storage adapters, the optional PostgreSQL evidence repository, and the
placeholder stores, and proves the spec's testable claims against them.

Modelling conventions:
  * JS byte buffers (`Buffer`/`Uint8Array`) are `List Nat` with each entry < 256.
  * A payload (`ContentLike`/`ByteLike`) is either a string or raw bytes.
  * `fetch` is external: adapters take the `HttpResponse` (or its absence,
    for connectivity failure) as an explicit argument.
  * `JSON.parse` and `Number` are external JS builtins: they are passed in as
    function parameters where an adapter uses them.
  * A thrown `Error` becomes `Except.error` carrying the exact message string
    the source builds, tagged with the spec's error taxonomy.
  * `node:crypto` `createHash('sha256')` is SHA-256 (FIPS 180-4); it is
    implemented here directly over `Nat` with explicit `% 2^32`.
-/

namespace Sha256

/-- 2^32, the word modulus of SHA-256. -/
def w32 : Nat := 4294967296

/-- Right rotation of a 32-bit word. -/
def rotr (n x : Nat) : Nat := ((x >>> n) ||| (x <<< (32 - n))) % w32

/-- Bitwise complement within 32 bits. -/
def compl32 (x : Nat) : Nat := x ^^^ 4294967295

/-- SHA-256 Ch function. -/
def ch (x y z : Nat) : Nat := (x &&& y) ^^^ (compl32 x &&& z)

/-- SHA-256 Maj function. -/
def maj (x y z : Nat) : Nat := (x &&& y) ^^^ ((x &&& z) ^^^ (y &&& z))

/-- SHA-256 Σ0. -/
def bigSigma0 (x : Nat) : Nat := rotr 2 x ^^^ (rotr 13 x ^^^ rotr 22 x)

/-- SHA-256 Σ1. -/
def bigSigma1 (x : Nat) : Nat := rotr 6 x ^^^ (rotr 11 x ^^^ rotr 25 x)

/-- SHA-256 σ0. -/
def smallSigma0 (x : Nat) : Nat := rotr 7 x ^^^ (rotr 18 x ^^^ (x >>> 3))

/-- SHA-256 σ1. -/
def smallSigma1 (x : Nat) : Nat := rotr 17 x ^^^ (rotr 19 x ^^^ (x >>> 10))

/-- The 64 SHA-256 round constants (FIPS 180-4 section 4.2.2, here in
    decimal). -/
def K : List Nat :=
  [1116352408, 1899447441, 3049323471, 3921009573,
   961987163, 1508970993, 2453635748, 2870763221,
   3624381080, 310598401, 607225278, 1426881987,
   1925078388, 2162078206, 2614888103, 3248222580,
   3835390401, 4022224774, 264347078, 604807628,
   770255983, 1249150122, 1555081692, 1996064986,
   2554220882, 2821834349, 2952996808, 3210313671,
   3336571891, 3584528711, 113926993, 338241895,
   666307205, 773529912, 1294757372, 1396182291,
   1695183700, 1986661051, 2177026350, 2456956037,
   2730485921, 2820302411, 3259730800, 3345764771,
   3516065817, 3600352804, 4094571909, 275423344,
   430227734, 506948616, 659060556, 883997877,
   958139571, 1322822218, 1537002063, 1747873779,
   1955562222, 2024104815, 2227730452, 2361852424,
   2428436474, 2756734187, 3204031479, 3329325298]

/-- Working state: the eight 32-bit words a..h. -/
structure St where
  a : Nat
  b : Nat
  c : Nat
  d : Nat
  e : Nat
  f : Nat
  g : Nat
  h : Nat

/-- The SHA-256 initial hash value (FIPS 180-4 section 5.3.3, in decimal). -/
def initSt : St :=
  ⟨1779033703, 3144134277, 1013904242, 2773480762,
   1359893119, 2600822924, 528734635, 1541459225⟩

/-- One compression round, consuming one round constant and one schedule word. -/
def step (s : St) (k w : Nat) : St :=
  let t1 := (s.h + bigSigma1 s.e + ch s.e s.f s.g + k + w) % w32
  let t2 := (bigSigma0 s.a + maj s.a s.b s.c) % w32
  { a := (t1 + t2) % w32, b := s.a, c := s.b, d := s.c,
    e := (s.d + t1) % w32, f := s.e, g := s.f, h := s.g }

/-- Big-endian packing of bytes into 32-bit words. -/
def toWords : List Nat → List Nat
  | b0 :: b1 :: b2 :: b3 :: rest =>
      (((b0 * 256 + b1) * 256 + b2) * 256 + b3) :: toWords rest
  | _ => []

/-- Extend the 16 block words to the 64-entry message schedule. -/
def extend (ws : Array Nat) : Array Nat :=
  (List.range 48).foldl (fun a i =>
    let t := i + 16
    a.push ((smallSigma1 (a.getD (t - 2) 0) + a.getD (t - 7) 0
             + smallSigma0 (a.getD (t - 15) 0) + a.getD (t - 16) 0) % w32)) ws

/-- Compress one 64-byte block into the running hash state. -/
def compress (s0 : St) (block : List Nat) : St :=
  let ws := extend (toWords block).toArray
  let s := (K.zip ws.toList).foldl (fun s kw => step s kw.1 kw.2) s0
  { a := (s0.a + s.a) % w32, b := (s0.b + s.b) % w32,
    c := (s0.c + s.c) % w32, d := (s0.d + s.d) % w32,
    e := (s0.e + s.e) % w32, f := (s0.f + s.f) % w32,
    g := (s0.g + s.g) % w32, h := (s0.h + s.h) % w32 }

/-- The message length in bits as 8 big-endian bytes. -/
def lenBytes (bits : Nat) : List Nat :=
  [bits >>> 56 % 256, bits >>> 48 % 256, bits >>> 40 % 256, bits >>> 32 % 256,
   bits >>> 24 % 256, bits >>> 16 % 256, bits >>> 8 % 256, bits % 256]

/-- SHA-256 padding: 0x80, zeros to 56 mod 64, then the 64-bit bit length. -/
def pad (msg : List Nat) : List Nat :=
  let len := msg.length
  let zeros := (119 - len % 64) % 64
  msg ++ 0x80 :: List.replicate zeros 0 ++ lenBytes (len * 8)

/-- Split a byte list into 64-byte blocks; the fuel argument (any bound on the
    number of blocks, e.g. the length) keeps the recursion structural. -/
def chunksAux : Nat → List Nat → List (List Nat)
  | 0, _ => []
  | _, [] => []
  | fuel + 1, a :: rest => ((a :: rest).take 64) :: chunksAux fuel ((a :: rest).drop 64)

/-- Split a byte list into 64-byte blocks. -/
def chunks (l : List Nat) : List (List Nat) := chunksAux l.length l

/-- Big-endian bytes of one 32-bit word. -/
def wordBytes (w : Nat) : List Nat :=
  [w >>> 24 % 256, w >>> 16 % 256, w >>> 8 % 256, w % 256]

/-- The full SHA-256 digest of a byte sequence, as 32 bytes. -/
def sha256Digest (msg : List Nat) : List Nat :=
  let s := (chunks (pad msg)).foldl compress initSt
  [s.a, s.b, s.c, s.d, s.e, s.f, s.g, s.h].flatMap wordBytes

end Sha256

/-- Lowercase hex digit for a value below 16 (`0`..`9`, `a`..`f`). -/
def hexChar (n : Nat) : Char :=
  if n < 10 then Char.ofNat (48 + n) else Char.ofNat (87 + n)

/-- Two lowercase hex digits of one byte. -/
def byteHex (b : Nat) : List Char := [hexChar (b / 16), hexChar (b % 16)]

/-- Hex string of a byte sequence (how node renders `digest('hex')`). -/
def bytesToHex (bs : List Nat) : String := String.mk (bs.flatMap byteHex)

/-- A payload as accepted by the library: text or raw bytes
    (`ContentLike = Buffer | Uint8Array | string`; the two binary forms
    collapse to one byte-sequence case). -/
inductive ContentLike
  | str (s : String)
  | bytes (b : List Nat)
deriving DecidableEq

/-- The UTF-8 bytes of a string (what `Buffer.from(s, 'utf8')` produces). -/
def utf8Bytes (s : String) : List Nat :=
  s.data.flatMap (fun c => (String.utf8EncodeChar c).map (fun b => b.toNat))

/-- `toBuffer` from src/hasher.ts: strings are UTF-8 encoded, byte forms pass
    through unchanged. -/
def toBuffer : ContentLike → List Nat
  | .str s => utf8Bytes s
  | .bytes b => b

/-- `sha256Hex` from src/hasher.ts: SHA-256 of the normalized bytes, as a hex
    string (the promise wrapper is dropped; the function is pure). -/
def sha256Hex (data : ContentLike) : String :=
  bytesToHex (Sha256.sha256Digest (toBuffer data))

/-- `sha256Bytes` from src/hasher.ts: the raw 32-byte digest. -/
def sha256Bytes (data : ContentLike) : List Nat :=
  Sha256.sha256Digest (toBuffer data)

/-! ## JS value model -/

/-- JS truthiness of a `string | undefined` value: `undefined` and the empty
    string are falsy. -/
def truthy : Option String → Bool
  | none => false
  | some s => s ≠ ""

/-- JS `a || b` on `string | undefined` values. -/
def jsOr (a b : Option String) : Option String := if truthy a then a else b

/-- JS `String.prototype.trim`: strip whitespace from both ends (modelled over
    the char list with ASCII whitespace). -/
def jsTrim (s : String) : String :=
  String.mk (((s.toList.dropWhile Char.isWhitespace).reverse.dropWhile
    Char.isWhitespace).reverse)

/-- JS `split('\n')` over a char list: split at every newline, empty pieces
    preserved. -/
def splitLines : List Char → List (List Char)
  | [] => [[]]
  | c :: rest =>
      let r := splitLines rest
      if c = '\n' then [] :: r
      else (c :: r.headD []) :: r.tail

/-- JS `String.prototype.split('\n')`. -/
def jsSplitNl (s : String) : List String := (splitLines s.toList).map String.mk

/-- A `fetch` `Response` as the adapters consume it: status flags, the text
    body (`bodyReadable = false` models `res.text()` rejecting), the raw body
    bytes (`res.arrayBuffer()`), and the headers. -/
structure HttpResponse where
  ok : Bool
  status : Nat
  statusText : String
  body : String
  bodyReadable : Bool
  bytes : List Nat
  headers : List (String × String)
deriving DecidableEq

/-- `safeText` from src/stores/ipfsStore.ts: `res.text()` under try/catch,
    `undefined` when the body cannot be read. -/
def safeText (res : HttpResponse) : Option String :=
  if res.bodyReadable then some res.body else none

/-- Header lookup (`res.headers.get(name)`, `null` mapped to `none`). -/
def getHeader (headers : List (String × String)) (name : String) : Option String :=
  (headers.find? (fun p => p.1 == name)).map (fun p => p.2)

/-- `PutOptions` from src/types.ts. An omitted `opts` argument behaves as the
    record with every field absent. -/
structure PutOptions where
  contentType : Option String
  filename : Option String
  tags : List (String × String)
  integrityHash : Option String
deriving DecidableEq

/-- The backend tag of a stored reference. -/
inductive Backend
  | arweave
  | ipfs
deriving DecidableEq

/-- `StoredRef` from src/types.ts. -/
structure StoredRef where
  cid : String
  backend : Backend
  url : Option String
deriving DecidableEq

/-- A thrown `Error`, carrying the exact message the source builds and tagged
    with the spec's taxonomy. `badResponse` covers the empty-response /
    missing-CID throws; `bodyUnreadable` models `res.text()` rejecting outside
    any try/catch; `jsonError` models `JSON.parse` throwing (its own message). -/
inductive StoreError
  | transport (message : String)
  | integrity (message : String)
  | badResponse (message : String)
  | jsonError
  | bodyUnreadable
deriving DecidableEq

/-- `clip` from src/stores/ipfsStore.ts (Arweave half): truncate a long body to
    `maxLen` chars (the call sites use the default 240) and append an ellipsis. -/
def clip (s : String) (maxLen : Nat) : String :=
  if s.length > maxLen then String.mk (s.toList.take maxLen) ++ "…" else s

/-- The JSON object shape `JSON.parse` yields for one line of the IPFS add
    response: the `Hash` / `Cid` / `cid` fields, each possibly absent. -/
structure IpfsAddJson where
  Hash : Option String
  Cid : Option String
  cid : Option String
deriving DecidableEq

namespace IpfsStore

/-- The transport-error message `IpfsStore.put` throws on a non-ok response:
    status, statusText, and the (untruncated) body when available, trimmed. -/
def addFailedMsg (res : HttpResponse) : String :=
  jsTrim ("IPFS add failed: " ++ toString res.status ++ " " ++ res.statusText ++ " " ++
    (match safeText res with
     | some b => if b ≠ "" then "- " ++ b else ""
     | none => ""))

/-- `IpfsStore.put` from src/stores/ipfsStore.ts. `jsonParse` abstracts the
    external `JSON.parse` builtin (`none` = it throws); the `fetch` response is
    passed in; `publicGateway` is the configured gateway base. -/
def put (jsonParse : String → Option IpfsAddJson) (publicGateway : String)
    (res : HttpResponse) (content : ContentLike) (opts : PutOptions) :
    Except StoreError StoredRef :=
  let data := toBuffer content
  if res.ok = false then
    .error (.transport (addFailedMsg res))
  else if res.bodyReadable = false then
    .error .bodyUnreadable
  else
    match ((jsSplitNl (jsTrim res.body)).filter (fun l => l ≠ "")).getLast? with
    | none => .error (.badResponse "IPFS add: empty response")
    | some lastLine =>
      match jsonParse lastLine with
      | none => .error .jsonError
      | some parsed =>
        let cidV := jsOr (jsOr parsed.Hash parsed.Cid) parsed.cid
        if truthy cidV = false then
          .error (.badResponse "IPFS add: missing CID in response")
        else
          let cidS := cidV.getD ""
          let computed := sha256Hex (.bytes data)
          if truthy opts.integrityHash && (opts.integrityHash.getD "" != computed) then
            .error (.integrity ("Integrity mismatch (IPFS): expected " ++
              opts.integrityHash.getD "" ++ ", got " ++ computed))
          else
            .ok ⟨cidS, .ipfs, some (publicGateway ++ cidS)⟩

/-- `IpfsStore.get`: the gateway bytes on an ok response, a transport error
    (status, statusText, untruncated body, trimmed) otherwise. -/
def get (res : HttpResponse) : Except StoreError (List Nat) :=
  if res.ok = false then
    .error (.transport (jsTrim ("IPFS get failed: " ++ toString res.status ++ " " ++
      res.statusText ++ " " ++
      (match safeText res with
       | some b => if b ≠ "" then "- " ++ b else ""
       | none => ""))))
  else
    .ok res.bytes

/-- Probe metadata as `head` returns it. `size` is `Number(contentLength)`;
    JS `Number` is abstracted as a parameter of `head`. -/
structure HeadMeta where
  contentType : Option String
  size : Option Int
deriving DecidableEq

/-- `IpfsStore.head`: `null` on any non-ok response, otherwise the
    content-type header (empty mapped to absent) and the parsed length. -/
def head (number : String → Int) (res : HttpResponse) : Option HeadMeta :=
  if res.ok = false then none
  else
    let ct := getHeader res.headers "content-type"
    let contentType := if truthy ct then ct else none
    let sizeH := getHeader res.headers "content-length"
    let size := if truthy sizeH then some (number (sizeH.getD "")) else none
    some ⟨contentType, size⟩

/-- `IpfsStore.verify`: download via `get`, re-hash, compare; every throw —
    including `fetch` itself rejecting (`fetchOutcome = none`) — is caught and
    turned into `false`. -/
def verify (fetchOutcome : Option HttpResponse) (expectedSha256 : String) : Bool :=
  match fetchOutcome with
  | none => false
  | some res =>
    match get res with
    | .error _ => false
    | .ok data => sha256Hex (.bytes data) == expectedSha256

end IpfsStore

namespace ArweaveStore

/-- The transport-error message `ArweaveStore.put` throws on a non-ok
    response: status, statusText, and the clipped body when available. -/
def uploadFailedMsg (res : HttpResponse) : String :=
  "Arweave upload failed: " ++ toString res.status ++ " " ++ res.statusText ++
    (match safeText res with
     | some b => if b ≠ "" then " - " ++ clip b 240 else ""
     | none => "")

/-- `ArweaveStore.put` from src/stores/ipfsStore.ts (Arweave half): raw POST,
    response body text is the transaction id; integrity enforced after the
    write; non-ok responses become transport errors with a clipped body. -/
def put (publicGateway : String) (res : HttpResponse) (content : ContentLike)
    (opts : PutOptions) : Except StoreError StoredRef :=
  let data := toBuffer content
  if res.ok = false then
    .error (.transport (uploadFailedMsg res))
  else if res.bodyReadable = false then
    .error .bodyUnreadable
  else
    let txId := jsTrim res.body
    if txId = "" then .error (.badResponse "Arweave upload: empty transaction id")
    else
      let computed := sha256Hex (.bytes data)
      if truthy opts.integrityHash && (opts.integrityHash.getD "" != computed) then
        .error (.integrity ("Integrity mismatch (Arweave): expected " ++
          opts.integrityHash.getD "" ++ ", got " ++ computed))
      else
        .ok ⟨txId, .arweave, some (publicGateway ++ txId)⟩

/-- `ArweaveStore.get`: gateway bytes on ok, transport error (clipped body)
    otherwise. -/
def get (res : HttpResponse) : Except StoreError (List Nat) :=
  if res.ok = false then
    .error (.transport ("Arweave get failed: " ++ toString res.status ++ " " ++
      res.statusText ++
      (match safeText res with
       | some b => if b ≠ "" then " - " ++ clip b 240 else ""
       | none => "")))
  else
    .ok res.bytes

/-- `ArweaveStore.head`: `null` on any non-ok response, same shape as the
    IPFS probe. -/
def head (number : String → Int) (res : HttpResponse) : Option IpfsStore.HeadMeta :=
  if res.ok = false then none
  else
    let ct := getHeader res.headers "content-type"
    let contentType := if truthy ct then ct else none
    let sizeH := getHeader res.headers "content-length"
    let size := if truthy sizeH then some (number (sizeH.getD "")) else none
    some ⟨contentType, size⟩

/-- `ArweaveStore.verify`: identical catch-all shape to the IPFS verify. -/
def verify (fetchOutcome : Option HttpResponse) (expectedSha256 : String) : Bool :=
  match fetchOutcome with
  | none => false
  | some res =>
    match get res with
    | .error _ => false
    | .ok data => sha256Hex (.bytes data) == expectedSha256

end ArweaveStore

/-! ## Placeholder stores (src/arweaveStore.ts, src/ipfsStore.ts, src/hash.ts) -/

namespace Placeholder

/-- `toBuffer` from src/hash.ts: `Buffer.from(string)` defaults to UTF-8;
    byte forms pass through. -/
def toBuffer : ContentLike → List Nat
  | .str s => utf8Bytes s
  | .bytes b => b

/-- `sha256` from src/hash.ts: hex digest of the normalized bytes. -/
def sha256 (data : ContentLike) : String :=
  bytesToHex (Sha256.sha256Digest (Placeholder.toBuffer data))

/-- `sha256Bytes` from src/hash.ts: the raw digest bytes. -/
def sha256Bytes (data : ContentLike) : List Nat :=
  Sha256.sha256Digest (Placeholder.toBuffer data)

/-- `ArweaveConfig` from src/arweaveStore.ts (the `key` field carries no
    behavior in the placeholder and is omitted). -/
structure ArweaveConfig where
  gatewayUrl : String
deriving DecidableEq

namespace ArweaveStore

/-- Placeholder `ArweaveStore.put`: hashes locally and returns the hex digest
    as the pretend identifier; config and options are unused. -/
def put (_cfg : ArweaveConfig) (data : ContentLike) (_opts : PutOptions) : String :=
  Placeholder.sha256 data

/-- Placeholder `ArweaveStore.get`: always throws. -/
def get (_cfg : ArweaveConfig) (_id : String) : Except String (List Nat) :=
  .error "ArweaveStore.get is not implemented yet"

/-- Placeholder `ArweaveStore.verify`: always `false` ("to avoid lying"). -/
def verify (_cfg : ArweaveConfig) (_id : String) : Bool := false

end ArweaveStore

/-- The default exported `arweaveStore` instance's configuration. -/
def arweaveStore : ArweaveConfig := ⟨"https://arweave.net"⟩

/-- `IpfsConfig` from src/ipfsStore.ts. -/
structure IpfsConfig where
  gatewayUrl : String
  pinningToken : Option String
deriving DecidableEq

namespace IpfsStore

/-- Placeholder `IpfsStore.put`: SHA-256 as a fake CID; config and options are
    unused. -/
def put (_cfg : IpfsConfig) (data : ContentLike) (_opts : PutOptions) : String :=
  Placeholder.sha256 data

/-- Placeholder `IpfsStore.get`: always throws. -/
def get (_cfg : IpfsConfig) (_cid : String) : Except String (List Nat) :=
  .error "IpfsStore.get is not implemented yet"

/-- Placeholder `IpfsStore.verify`: always `false`. -/
def verify (_cfg : IpfsConfig) (_cid : String) : Bool := false

end IpfsStore

/-- The default exported `ipfsStore` instance's configuration. -/
def ipfsStore : IpfsConfig := ⟨"https://ipfs.io/ipfs/", none⟩

end Placeholder

/-! ## Dual-pin orchestrator (modelled from the spec) -/

/-- Modelled from the spec: the `DualPinResult` shape of `StorageLib.dualPin`
    (§3 Data Model, README API reference) — the orchestrator implementation is
    not under src/. -/
structure DualPinResult where
  primary : StoredRef
  mirror : StoredRef
  computedSha256 : String
  matchesExpected : Bool
deriving DecidableEq

/-- Modelled from the spec: which adapter aborted the dual-pin call. -/
inductive DualPinError
  | primaryFailed (e : StoreError)
  | mirrorFailed (e : StoreError)
deriving DecidableEq

/-- Modelled from the spec (§4.2): one adapter store call as the orchestrator
    sees it — the transport outcome is a parameter, and a resolved expected
    digest differing from the computed digest is fatal immediately after the
    remote write. -/
def specStore (transport : Except StoreError StoredRef) (expected computed : String) :
    Except StoreError StoredRef :=
  match transport with
  | .error e => .error e
  | .ok ref =>
      if expected ≠ computed then
        .error (.integrity ("Integrity mismatch: expected " ++ expected ++
          ", got " ++ computed))
      else .ok ref

/-- Modelled from the spec (§4.3): `StorageLib.dualPin`, whose implementation
    is not under src/. Digest once; resolve the expected digest (the caller's
    if supplied, else the computed one); store primary then mirror with the
    same resolved expectation, a failure in either aborting the call; assemble
    the result with the match flag = (resolved expected digest equals
    computed). `matchesExpected` models the result field named `matches`
    (a reserved word here). -/
def dualPin (primaryTransport mirrorTransport : Except StoreError StoredRef)
    (content : ContentLike) (expectedDigest : Option String) :
    Except DualPinError DualPinResult :=
  let computed := sha256Hex content
  let resolved := expectedDigest.getD computed
  match specStore primaryTransport resolved computed with
  | .error e => .error (.primaryFailed e)
  | .ok pref =>
    match specStore mirrorTransport resolved computed with
    | .error e => .error (.mirrorFailed e)
    | .ok mref => .ok ⟨pref, mref, computed, resolved == computed⟩

/-! ## Evidence repository (src/postgres/metadata.ts) -/

/-- One `evidence_records` row. `id` is the BIGSERIAL insertion counter,
    `created_at` the timestamptz (as an instant; the ISO rendering the repo
    applies on read does not affect ordering). -/
structure EvidenceRow where
  id : Nat
  deal_id : String
  party : String
  sha256 : String
  primary_cid : String
  mirror_cid : String
  content_type : Option String
  created_at : Nat
deriving DecidableEq

/-- The SQL comparator `order by created_at desc, id desc`: `a` may appear
    before `b` iff `a` is strictly newer, or equally old with the larger
    (later-inserted) id. -/
def newestFirst (a b : EvidenceRow) : Prop :=
  b.created_at < a.created_at ∨ (a.created_at = b.created_at ∧ b.id ≤ a.id)

instance : DecidableRel newestFirst := fun a b => by
  unfold newestFirst
  exact inferInstance

instance : IsTotal EvidenceRow newestFirst :=
  ⟨by intro a b; unfold newestFirst; omega⟩

instance : IsTrans EvidenceRow newestFirst :=
  ⟨by intro a b c; unfold newestFirst; omega⟩

namespace EvidenceRepo

/-- `EvidenceRepo.findByDeal`: the rows whose `deal_id` matches, ordered by
    `created_at desc, id desc` (the table is the list of inserted rows). -/
def findByDeal (db : List EvidenceRow) (dealId : String) : List EvidenceRow :=
  List.insertionSort newestFirst (db.filter (fun r => r.deal_id == dealId))

/-- `EvidenceRepo.listRecent`: clamp the limit into 1..500
    (`Math.max(1, Math.min(limit, 500))`), then the newest rows first
    (`order by created_at desc, id desc limit lim`). -/
def listRecent (db : List EvidenceRow) (limit : Int) : List EvidenceRow :=
  let lim := max 1 (min limit 500)
  (List.insertionSort newestFirst db).take lim.toNat

end EvidenceRepo

/-! ## Digest format lemmas -/

/-- A lowercase hex digit: `0`..`9` or `a`..`f`. -/
def isLowerHexChar (c : Char) : Bool :=
  (48 ≤ c.toNat && c.toNat ≤ 57) || (97 ≤ c.toNat && c.toNat ≤ 102)

theorem hexChar_isLowerHex : ∀ n, n < 16 → isLowerHexChar (hexChar n) = true := by
  decide

theorem flatMap_byteHex_length (bs : List Nat) :
    (bs.flatMap byteHex).length = 2 * bs.length := by
  induction bs with
  | nil => rfl
  | cons b t ih => simp [byteHex] at ih ⊢; omega

theorem bytesToHex_length (bs : List Nat) :
    (bytesToHex bs).length = 2 * bs.length := by
  simpa [bytesToHex, String.length] using flatMap_byteHex_length bs

theorem byteHex_isLowerHex (b : Nat) (hb : b < 256) :
    ∀ c ∈ byteHex b, isLowerHexChar c = true := by
  intro c hc
  have h1 : b / 16 < 16 := by omega
  have h2 : b % 16 < 16 := by omega
  simp [byteHex] at hc
  rcases hc with h | h <;> subst h
  · exact hexChar_isLowerHex _ h1
  · exact hexChar_isLowerHex _ h2

theorem bytesToHex_isLowerHex (bs : List Nat) (h : ∀ b ∈ bs, b < 256) :
    (bytesToHex bs).toList.all isLowerHexChar = true := by
  rw [List.all_eq_true]
  intro c hc
  have : (bytesToHex bs).toList = bs.flatMap byteHex := rfl
  rw [this, List.mem_flatMap] at hc
  rcases hc with ⟨b, hb, hcb⟩
  exact byteHex_isLowerHex b (h b hb) c hcb

theorem sha256Digest_length (msg : List Nat) :
    (Sha256.sha256Digest msg).length = 32 := by
  simp [Sha256.sha256Digest, Sha256.wordBytes]

theorem sha256Digest_lt (msg : List Nat) :
    ∀ b ∈ Sha256.sha256Digest msg, b < 256 := by
  intro b hb
  simp [Sha256.sha256Digest, Sha256.wordBytes] at hb
  rcases hb with h | h | h | h | h | h | h | h <;>
    rcases h with h | h | h | h <;> omega

theorem sha256Hex_length (data : ContentLike) : (sha256Hex data).length = 64 := by
  rw [sha256Hex, bytesToHex_length, sha256Digest_length]

theorem sha256Hex_isLowerHex (data : ContentLike) :
    (sha256Hex data).toList.all isLowerHexChar = true :=
  bytesToHex_isLowerHex _ (sha256Digest_lt _)

theorem sha256Hex_bytes_toBuffer (data : ContentLike) :
    sha256Hex (.bytes (toBuffer data)) = sha256Hex data := by
  cases data <;> rfl

/-- C4: the digest function is deterministic — computing it twice yields the
    identical result, a 64-character string of lowercase hex digits — and the
    text and byte representations of the same content hash identically:
    `sha256Hex` of a string equals `sha256Hex` of that string's UTF-8 bytes. -/
theorem claimC4_digest_deterministic_hex :
    (∀ data : ContentLike,
      sha256Hex data = sha256Hex data ∧
      (sha256Hex data).length = 64 ∧
      (sha256Hex data).toList.all isLowerHexChar = true) ∧
    (∀ s : String, sha256Hex (.str s) = sha256Hex (.bytes (utf8Bytes s))) := by
  refine ⟨fun data => ⟨rfl, sha256Hex_length data, sha256Hex_isLowerHex data⟩, fun s => rfl⟩

theorem placeholder_sha256_eq_sha256Hex (data : ContentLike) :
    Placeholder.sha256 data = sha256Hex data := by
  cases data <;> rfl

/-- C10: the placeholder adapters exported from the package index return, for
    `put(data)`, exactly the 64-character lowercase SHA-256 hex digest of the
    data as the stored identifier — a pure, deterministic function of the
    content, independent of options and configuration (so in particular of the
    default `arweaveStore` / `ipfsStore` instances' configurations). -/
theorem claimC10_placeholder_put (data : ContentLike)
    (cfgA cfgA2 : Placeholder.ArweaveConfig) (cfgI cfgI2 : Placeholder.IpfsConfig)
    (opts opts2 : PutOptions) :
    Placeholder.ArweaveStore.put cfgA data opts = Placeholder.sha256 data ∧
    Placeholder.IpfsStore.put cfgI data opts = Placeholder.sha256 data ∧
    Placeholder.sha256 data = sha256Hex data ∧
    (Placeholder.sha256 data).length = 64 ∧
    (Placeholder.sha256 data).toList.all isLowerHexChar = true ∧
    Placeholder.ArweaveStore.put cfgA data opts = Placeholder.ArweaveStore.put cfgA2 data opts2 ∧
    Placeholder.IpfsStore.put cfgI data opts = Placeholder.IpfsStore.put cfgI2 data opts2 := by
  refine ⟨rfl, rfl, placeholder_sha256_eq_sha256Hex data, ?_, ?_, rfl, rfl⟩
  · rw [placeholder_sha256_eq_sha256Hex data]
    exact sha256Hex_length data
  · rw [placeholder_sha256_eq_sha256Hex data]
    exact sha256Hex_isLowerHex data

/-- C2: any `dualPin` call that reaches result assembly returns a result whose
    match flag is true — in particular every call with no expected digest that
    returns a result — because an expected-digest mismatch is fatal in the
    store step, before the result is assembled; a result with the flag false
    is unreachable. (The orchestrator is modelled from the spec, §4.3.) -/
theorem claimC2_matches_true (pt mt : Except StoreError StoredRef)
    (content : ContentLike) (ed : Option String) (r : DualPinResult)
    (h : dualPin pt mt content ed = .ok r) : r.matchesExpected = true := by
  rcases pt with e | pref
  · simp [dualPin, specStore] at h
  · rcases mt with e | mref
    · by_cases hx : ed.getD (sha256Hex content) = sha256Hex content <;>
        simp [dualPin, specStore, hx] at h
    · by_cases hx : ed.getD (sha256Hex content) = sha256Hex content
      · simp [dualPin, specStore, hx] at h
        rw [← h]
      · simp [dualPin, specStore, hx] at h

/-- C2 witness: a concrete dual-pin call with no expected digest, both
    transports succeeding, observed to return a result with the flag true. -/
theorem claimC2_witness :
    (⟨⟨"tx1", .arweave, none⟩, ⟨"QmTest", .ipfs, none⟩,
      sha256Hex (.str "hello"), true⟩ : DualPinResult).matchesExpected = true :=
  claimC2_matches_true (.ok ⟨"tx1", .arweave, none⟩) (.ok ⟨"QmTest", .ipfs, none⟩)
    (.str "hello") none _ (by rfl)

/-- C6: when the gateway answers the probe with a non-success status, both
    adapters' `head` returns `null` rather than raising — an unknown or
    not-yet-propagated identifier is a non-exceptional outcome. -/
theorem claimC6_head_absent_on_non_success (number : String → Int)
    (res : HttpResponse) (h : res.ok = false) :
    IpfsStore.head number res = none ∧ ArweaveStore.head number res = none := by
  constructor <;> simp [IpfsStore.head, ArweaveStore.head, h]

/-- C6 witness: a concrete 404 probe response yields `none` on both
    adapters. -/
theorem claimC6_witness :
    IpfsStore.head (fun _ => 0) ⟨false, 404, "Not Found", "", true, [], []⟩ = none ∧
    ArweaveStore.head (fun _ => 0) ⟨false, 404, "Not Found", "", true, [], []⟩ = none :=
  claimC6_head_absent_on_non_success (fun _ => 0) ⟨false, 404, "Not Found", "", true, [], []⟩ rfl

/-- C7: `listRecent` clamps any integer limit into 1..500 instead of rejecting
    it: it never returns more than 500 rows (so in particular not for
    limit 10000), and it returns at least 1 row whenever the table is
    non-empty (so in particular for limit 0). -/
theorem claimC7_listRecent_clamped (limit : Int) (db : List EvidenceRow) :
    (EvidenceRepo.listRecent db limit).length ≤ 500 ∧
    (db ≠ [] → 1 ≤ (EvidenceRepo.listRecent db limit).length) := by
  unfold EvidenceRepo.listRecent
  have hsorted : (List.insertionSort newestFirst db).length = db.length :=
    List.length_insertionSort newestFirst db
  rw [List.length_take, hsorted]
  constructor
  · omega
  · intro hne
    have : 0 < db.length := List.length_pos.mpr hne
    omega

/-- C7 witness: with a one-row table, limit 0 is clamped up to 1 (one row
    comes back) and limit 10000 is clamped down to 500. -/
theorem claimC7_witness :
    (EvidenceRepo.listRecent [⟨1, "DEAL-1", "buyer", "", "tx", "cid", none, 5⟩] 0).length ≤ 500 ∧
    1 ≤ (EvidenceRepo.listRecent [⟨1, "DEAL-1", "buyer", "", "tx", "cid", none, 5⟩] 0).length :=
  ⟨(claimC7_listRecent_clamped 0 [⟨1, "DEAL-1", "buyer", "", "tx", "cid", none, 5⟩]).1,
   (claimC7_listRecent_clamped 0 [⟨1, "DEAL-1", "buyer", "", "tx", "cid", none, 5⟩]).2
     (by simp)⟩

/-- C8: `findByDeal` returns exactly the audit rows recorded for the given
    transaction id (as a multiset, and membership-wise), ordered newest-first
    by creation timestamp with ties broken by insertion order (larger
    BIGSERIAL id first) — the SQL `order by created_at desc, id desc`. -/
theorem claimC8_findByDeal_ordered (db : List EvidenceRow) (dealId : String) :
    (EvidenceRepo.findByDeal db dealId).Perm (db.filter (fun r => r.deal_id == dealId)) ∧
    List.Sorted newestFirst (EvidenceRepo.findByDeal db dealId) ∧
    ∀ r : EvidenceRow, r ∈ EvidenceRepo.findByDeal db dealId ↔ (r ∈ db ∧ r.deal_id = dealId) := by
  refine ⟨List.perm_insertionSort _ _, List.sorted_insertionSort _ _, ?_⟩
  intro r
  rw [EvidenceRepo.findByDeal, List.mem_insertionSort, List.mem_filter]
  simp

/-- C9: the HTTP adapters' `verify` is total over errors — every underlying
    failure maps to `false`: a fetch that cannot complete at all (`none`), and
    a non-success download response; on a success response it returns the
    boolean digest comparison (never a throw). -/
theorem claimC9_verify_total (expected : String) (res : HttpResponse)
    (hres : res.ok = false) :
    IpfsStore.verify none expected = false ∧
    ArweaveStore.verify none expected = false ∧
    IpfsStore.verify (some res) expected = false ∧
    ArweaveStore.verify (some res) expected = false ∧
    (∀ res2 : HttpResponse, res2.ok = true →
      IpfsStore.verify (some res2) expected = (sha256Hex (.bytes res2.bytes) == expected) ∧
      ArweaveStore.verify (some res2) expected = (sha256Hex (.bytes res2.bytes) == expected)) := by
  refine ⟨rfl, rfl, ?_, ?_, ?_⟩
  · simp [IpfsStore.verify, IpfsStore.get, hres]
  · simp [ArweaveStore.verify, ArweaveStore.get, hres]
  · intro res2 h2
    constructor <;> simp [IpfsStore.verify, ArweaveStore.verify, IpfsStore.get, ArweaveStore.get, h2]

/-- C9 witness: a concrete 500 download response and an outright fetch failure
    both verify to `false`, without an exception. -/
theorem claimC9_witness :
    IpfsStore.verify none "00" = false ∧
    ArweaveStore.verify (some ⟨false, 500, "Internal Server Error", "x", true, [1], []⟩) "00" = false :=
  ⟨(claimC9_verify_total "00" ⟨false, 500, "Internal Server Error", "x", true, [1], []⟩ rfl).1,
   (claimC9_verify_total "00" ⟨false, 500, "Internal Server Error", "x", true, [1], []⟩ rfl).2.2.2.1⟩

/-- C3 counterexample: the placeholder Arweave adapter (exported from the
    package index as the default `arweaveStore`) stores "hello" successfully,
    yielding its digest as the identifier, yet `verify` on that identifier
    does not return true — the placeholder `verify` is hard-coded to `false`. -/
theorem claimC3_counterexample :
    ¬ (Placeholder.ArweaveStore.verify Placeholder.arweaveStore
        (Placeholder.ArweaveStore.put Placeholder.arweaveStore (.str "hello")
          ⟨none, none, [], none⟩) = true) := by
  simp [Placeholder.ArweaveStore.verify]

/-- C3 (amended): for the HTTP adapters, when the gateway serves back the
    stored payload's bytes for the identifier, `verify` with the payload's
    digest returns true, and `verify` with any non-matching expected digest
    (e.g. a string of zeros) returns false, without throwing; the placeholder
    adapters' `verify`, by contrast, always returns false. -/
theorem claimC3_amended_http_verify (res : HttpResponse) (P : ContentLike)
    (other : String) (hok : res.ok = true) (hbytes : res.bytes = toBuffer P)
    (hne : other ≠ sha256Hex P) :
    IpfsStore.verify (some res) (sha256Hex P) = true ∧
    IpfsStore.verify (some res) other = false ∧
    ArweaveStore.verify (some res) (sha256Hex P) = true ∧
    ArweaveStore.verify (some res) other = false ∧
    (∀ cfgA id, Placeholder.ArweaveStore.verify cfgA id = false) ∧
    (∀ cfgI id, Placeholder.IpfsStore.verify cfgI id = false) := by
  have hdig : sha256Hex (.bytes res.bytes) = sha256Hex P := by
    rw [hbytes]; exact sha256Hex_bytes_toBuffer P
  have hne' : ¬ sha256Hex P = other := fun hEq => hne hEq.symm
  refine ⟨?_, ?_, ?_, ?_, fun _ _ => rfl, fun _ _ => rfl⟩ <;>
    simp [IpfsStore.verify, ArweaveStore.verify, IpfsStore.get, ArweaveStore.get,
      hok, hdig, hne']

/-- C3 witness: a concrete ok response carrying the bytes of "hello": verify
    succeeds against the real digest and fails against the all-zero digest. -/
theorem claimC3_amended_witness :
    IpfsStore.verify (some ⟨true, 200, "OK", "", true, utf8Bytes "hello", []⟩)
      (sha256Hex (.str "hello")) = true ∧
    ArweaveStore.verify (some ⟨true, 200, "OK", "", true, utf8Bytes "hello", []⟩)
      "0000000000000000000000000000000000000000000000000000000000000000" = false := by
  have h := claimC3_amended_http_verify
    ⟨true, 200, "OK", "", true, utf8Bytes "hello", []⟩ (.str "hello")
    "0000000000000000000000000000000000000000000000000000000000000000"
    rfl rfl (by decide)
  exact ⟨h.1, h.2.2.2.1⟩

/-- C1 counterexample fixture: a successful IPFS add response (the body text
    is abstracted; `jsonParse` models `JSON.parse` yielding a `Hash` field). -/
def c1Response : HttpResponse := ⟨true, 200, "OK", "x", true, [], []⟩

/-- C1 counterexample fixture: `JSON.parse` of the add-response line. -/
def c1JsonParse : String → Option IpfsAddJson := fun _ => some ⟨some "QmTest", none, none⟩

/-- C1 counterexample fixture: options whose `integrityHash` field is set —
    to the empty string. -/
def c1Opts : PutOptions := ⟨none, none, [], some ""⟩

/-- C1 counterexample: with `integrityHash` set to `""` — which is set, and
    differs from the computed digest of the payload — `put` does NOT fail with
    an Integrity error: it returns a StoredRef, because the source guards the
    comparison with JS truthiness (`opts?.integrityHash && ...`) and the empty
    string is falsy. -/
theorem claimC1_counterexample :
    c1Opts.integrityHash = some "" ∧
    ("" : String) ≠ sha256Hex (.str "hello") ∧
    IpfsStore.put c1JsonParse "https://ipfs.io/ipfs/" c1Response (.str "hello") c1Opts =
      .ok ⟨"QmTest", .ipfs, some "https://ipfs.io/ipfs/QmTest"⟩ := by
  refine ⟨rfl, ?_, by rfl⟩
  intro h
  have := congrArg String.length h
  rw [sha256Hex_length] at this
  simp at this

/-- C1 (amended): for every payload and put-options whose `integrityHash` is
    set to a NON-EMPTY string differing from the computed SHA-256 digest of
    the payload, both HTTP adapters' `put` never returns a StoredRef, whatever
    the transport does; and on the success path (upload accepted, identifier
    parsed) it fails with the Integrity error immediately after the remote
    write, performing no further action. (The empty string, though set, is
    falsy in JS and disables the check — see the counterexample.) -/
theorem claimC1_amended (jsonParse : String → Option IpfsAddJson)
    (gw gw2 : String) (res res2 : HttpResponse) (content : ContentLike)
    (opts : PutOptions) (ih : String)
    (hih : opts.integrityHash = some ih) (hne : ih ≠ "") (hmm : ih ≠ sha256Hex content) :
    (∀ ref, IpfsStore.put jsonParse gw res content opts ≠ .ok ref) ∧
    (∀ ref, ArweaveStore.put gw2 res2 content opts ≠ .ok ref) ∧
    (res.ok = true → res.bodyReadable = true →
      ∀ line parsed,
        ((jsSplitNl (jsTrim res.body)).filter (fun l => l ≠ "")).getLast? = some line →
        jsonParse line = some parsed →
        truthy (jsOr (jsOr parsed.Hash parsed.Cid) parsed.cid) = true →
        IpfsStore.put jsonParse gw res content opts =
          .error (.integrity ("Integrity mismatch (IPFS): expected " ++ ih ++
            ", got " ++ sha256Hex content))) ∧
    (res2.ok = true → res2.bodyReadable = true → jsTrim res2.body ≠ "" →
      ArweaveStore.put gw2 res2 content opts =
        .error (.integrity ("Integrity mismatch (Arweave): expected " ++ ih ++
          ", got " ++ sha256Hex content))) := by
  have hcond : (truthy opts.integrityHash &&
      (opts.integrityHash.getD "" != sha256Hex (.bytes (toBuffer content)))) = true := by
    rw [hih, sha256Hex_bytes_toBuffer]
    simp [truthy, hne, bne_iff_ne, hmm]
  refine ⟨?_, ?_, ?_, ?_⟩
  · intro ref h
    simp only [IpfsStore.put] at h
    repeat' split at h
    all_goals simp_all
  · intro ref h
    simp only [ArweaveStore.put] at h
    repeat' split at h
    all_goals simp_all
  · intro hok hbr line parsed hline hparse htr
    simp only [IpfsStore.put, hok, hbr, hline, hparse, htr, hcond, hih,
      sha256Hex_bytes_toBuffer]
    simp [hcond]
    exact ⟨by simp [truthy, hne], hmm⟩
  · intro hok hbr htx
    simp only [ArweaveStore.put, hok, hbr]
    rw [if_neg (by simp [hok]), if_neg (by simp [hbr]), if_neg htx, if_pos (by exact hcond)]
    rw [hih, sha256Hex_bytes_toBuffer]
    simp

/-- C1 witness: a concrete successful upload with a non-empty, non-matching
    expected digest — `put` returns no StoredRef and fails with the Integrity
    error. -/
theorem claimC1_amended_witness :
    (∀ ref, IpfsStore.put c1JsonParse "g" c1Response (.str "hello")
        ⟨none, none, [], some "deadbeef"⟩ ≠ .ok ref) ∧
    IpfsStore.put c1JsonParse "g" c1Response (.str "hello")
        ⟨none, none, [], some "deadbeef"⟩ =
      .error (.integrity ("Integrity mismatch (IPFS): expected " ++ "deadbeef" ++
        ", got " ++ sha256Hex (.str "hello"))) := by
  have h := claimC1_amended c1JsonParse "g" "g2" c1Response c1Response (.str "hello")
    ⟨none, none, [], some "deadbeef"⟩ "deadbeef" rfl (by decide) (by decide)
  exact ⟨h.1, h.2.2.1 rfl rfl "x" ⟨some "QmTest", none, none⟩ rfl rfl rfl⟩

theorem clip_length_le (s : String) : (clip s 240).length ≤ 241 := by
  unfold clip
  split
  · rw [String.length_append]
    have h1 : (String.mk (s.toList.take 240)).length = (s.toList.take 240).length := rfl
    have h2 : (s.toList.take 240).length ≤ 240 := by
      rw [List.length_take]; omega
    have h3 : ("…" : String).length = 1 := rfl
    omega
  · omega

/-- C5 counterexample fixture: a 300-character error body. -/
def c5Body : String := String.mk (List.replicate 300 'a')

/-- C5 counterexample fixture: a failed upload response carrying that body. -/
def c5Response : HttpResponse := ⟨false, 500, "Internal Server Error", c5Body, true, [], []⟩

set_option maxRecDepth 16384 in
/-- C5 counterexample: on a non-success upload response, the IPFS adapter's
    Transport error carries the response body IN FULL — a 300-character body,
    longer than the 240-character clip limit, appears untruncated in the
    message, so "a truncated response body" does not hold of every store
    call. -/
theorem claimC5_counterexample :
    c5Body.length = 300 ∧
    clip c5Body 240 ≠ c5Body ∧
    IpfsStore.put (fun _ => none) "g" c5Response (.str "hello") ⟨none, none, [], none⟩ =
      .error (.transport ("IPFS add failed: 500 Internal Server Error - " ++ c5Body)) := by
  refine ⟨?_, by decide, by rfl⟩
  have h : c5Body.length = (List.replicate 300 'a').length := rfl
  rw [h, List.length_replicate]

/-- C5 (amended): on any non-success upload response both adapters fail with a
    Transport error carrying the remote status and statusText; the Arweave
    adapter includes the body truncated by `clip` (so at most 241 characters),
    while the IPFS adapter includes the response body in full, untruncated. -/
theorem claimC5_amended (jsonParse : String → Option IpfsAddJson)
    (gw gw2 : String) (res : HttpResponse) (content content2 : ContentLike)
    (opts opts2 : PutOptions)
    (hok : res.ok = false) (hbr : res.bodyReadable = true) (hbody : res.body ≠ "") :
    ArweaveStore.put gw2 res content2 opts2 =
      .error (.transport ("Arweave upload failed: " ++ toString res.status ++ " " ++
        res.statusText ++ (" - " ++ clip res.body 240))) ∧
    (clip res.body 240).length ≤ 241 ∧
    IpfsStore.put jsonParse gw res content opts =
      .error (.transport (jsTrim ("IPFS add failed: " ++ toString res.status ++ " " ++
        res.statusText ++ " " ++ ("- " ++ res.body)))) := by
  refine ⟨?_, clip_length_le res.body, ?_⟩
  · simp only [ArweaveStore.put, ArweaveStore.uploadFailedMsg, safeText, hok, hbr]
    simp [hbody]
  · simp only [IpfsStore.put, IpfsStore.addFailedMsg, safeText, hok, hbr]
    simp [hbody]

/-- C5 witness: a concrete 502 upload failure — the Arweave error message
    carries the clipped body, the IPFS error message the full body. -/
theorem claimC5_amended_witness :
    ArweaveStore.put "g2" ⟨false, 502, "Bad Gateway", "boom", true, [], []⟩
        (.str "p") ⟨none, none, [], none⟩ =
      .error (.transport ("Arweave upload failed: " ++ toString 502 ++ " " ++
        "Bad Gateway" ++ (" - " ++ clip "boom" 240))) ∧
    (clip ("boom" : String) 240).length ≤ 241 ∧
    IpfsStore.put (fun _ => none) "g" ⟨false, 502, "Bad Gateway", "boom", true, [], []⟩
        (.str "p") ⟨none, none, [], none⟩ =
      .error (.transport (jsTrim ("IPFS add failed: " ++ toString 502 ++ " " ++
        "Bad Gateway" ++ " " ++ ("- " ++ "boom")))) :=
  claimC5_amended (fun _ => none) "g" "g2" ⟨false, 502, "Bad Gateway", "boom", true, [], []⟩
    (.str "p") (.str "p") ⟨none, none, [], none⟩ ⟨none, none, [], none⟩
    rfl rfl (by decide)
